import Mathlib

/-!
Shallow embedding of the authentication / session lifecycle subsystem of the
Sharing backend (Express + Mongoose).  Pure JS helpers become Lean functions;
the Mongo collections (users, sessions, token blacklist, posts) become lists
inside an explicit state record, and each controller becomes a state-passing
function returning `Except ApiError result × St`.  Times are naturals counting
milliseconds; JWT `exp`/`iat` fields count seconds, as in the source.  The
bcrypt hash is modelled as an injective tagging function, matching the spec's
instruction to treat hashing as an opaque hash-and-compare capability.
-/

namespace SharingAuth

/-- Client metadata attached to tokens and sessions (`getClientMetadata`). -/
structure Metadata where
  ipAddress : String
  userAgent : String
deriving DecidableEq, Repr

/-- The `userInfo` argument of the password validator. -/
structure UserInfo where
  email : String
  firstname : String
  lastname : String
deriving DecidableEq, Repr

/-- Result shape of `validatePasswordStrength` / `validatePassword`. -/
structure PwResult where
  isValid : Bool
  errors : List String
deriving DecidableEq, Repr

/-- Result shape of `validatePasswordMatch` / `validatePasswordNoUserInfo`:
`isValid` plus a single optional error message. -/
structure OneCheck where
  isValid : Bool
  error : Option String
deriving DecidableEq, Repr

/-- ASCII lowercase of a string (`String.prototype.toLowerCase` on the ASCII
inputs used here). -/
def lowerStr (s : String) : String :=
  String.mk (s.data.map Char.toLower)

/-- `needle` occurs as a contiguous substring of `hay`
(JS `String.prototype.includes`). -/
def listContains (hay needle : List Char) : Bool :=
  match hay with
  | [] => needle.isEmpty
  | _ :: t => needle.isPrefixOf hay || listContains t needle

/-- String-level wrapper for `listContains`. -/
def strContains (hay needle : String) : Bool :=
  listContains hay.data needle.data

/-- The special characters accepted by the strength check, from the regex
character class in `passwordValidator.js`. -/
def specialChars : List Char :=
  ['!', '@', '#', '$', '%', '^', '&', '*', '(', ')', '_', '+', '-', '=',
   '[', ']', '\x7b', '\x7d', ';', '\x27', ':', '\x22', '\x5c', '|', ',',
   '.', '<', '>', '/', '?']

/-- The hard-coded common-password list of `validatePasswordStrength`. -/
def commonPasswords : List String :=
  ["password", "password123", "12345678", "qwerty", "abc123",
   "password1", "123456789", "12345", "1234567890", "letmein",
   "welcome", "monkey", "dragon", "master", "sunshine", "princess",
   "admin", "admin123", "root", "toor", "pass", "test", "guest"]

/-- The regex `(.)\1\x7b2,\x7d` test: three or more consecutive equal
characters (the dot does not match a newline). -/
def hasTripleRepeat : List Char → Bool
  | a :: b :: c :: rest =>
      (a == b && b == c && a != '\n') || hasTripleRepeat (b :: c :: rest)
  | _ => false

def msgMinLen : String := "Password must be at least 8 characters long"

def msgMaxLen : String := "Password must not exceed 128 characters"

def msgUpper : String := "Password must contain at least one uppercase letter"

def msgLower : String := "Password must contain at least one lowercase letter"

def msgDigit : String := "Password must contain at least one number"

def msgSpecial : String :=
  "Password must contain at least one special character (!@#$%^&*()_+-=[]\x7b\x7d; etc.)"

def msgCommon : String := "Password is too common and easily guessable"

def msgRepeat : String :=
  "Password should not contain repeated characters (e.g., aaa, 111)"

def msgMatch : String := "Passwords do not match"

def msgEmailPart : String := "Password should not contain your email address"

def msgFirstName : String := "Password should not contain your first name"

def msgLastName : String := "Password should not contain your last name"

/-- `validatePasswordStrength` of `passwordValidator.js`: pushes one message
per violated rule, in source order. -/
def validatePasswordStrength (password : String) : PwResult :=
  let errors :=
    (if password.length < 8 then [msgMinLen] else []) ++
    (if password ≠ "" ∧ password.length > 128 then [msgMaxLen] else []) ++
    (if ¬ password.data.any Char.isUpper then [msgUpper] else []) ++
    (if ¬ password.data.any Char.isLower then [msgLower] else []) ++
    (if ¬ password.data.any Char.isDigit then [msgDigit] else []) ++
    (if ¬ password.data.any (fun c => specialChars.contains c) then [msgSpecial] else []) ++
    (if commonPasswords.contains (lowerStr password) then [msgCommon] else []) ++
    (if hasTripleRepeat password.data then [msgRepeat] else [])
  ⟨errors.isEmpty, errors⟩

/-- `validatePasswordMatch`. -/
def validatePasswordMatch (password confirmPassword : String) : OneCheck :=
  if password ≠ confirmPassword then ⟨false, some msgMatch⟩ else ⟨true, none⟩

/-- The email local part: `email.split("@")[0]`. -/
def emailLocalPart (email : String) : String :=
  String.mk (email.data.takeWhile (fun c => c ≠ '@'))

/-- `validatePasswordNoUserInfo`: returns on the FIRST violated containment
rule, in the order email local part, first name, last name. -/
def validatePasswordNoUserInfo (password : String) (userInfo : UserInfo) : OneCheck :=
  let lowerPassword := lowerStr password
  if userInfo.email ≠ "" ∧
      strContains lowerPassword (lowerStr (emailLocalPart userInfo.email)) then
    ⟨false, some msgEmailPart⟩
  else if userInfo.firstname.length ≥ 3 ∧
      strContains lowerPassword (lowerStr userInfo.firstname) then
    ⟨false, some msgFirstName⟩
  else if userInfo.lastname.length ≥ 3 ∧
      strContains lowerPassword (lowerStr userInfo.lastname) then
    ⟨false, some msgLastName⟩
  else ⟨true, none⟩

/-- `validatePassword`: strength errors, then the confirm-match error (when a
confirmation is supplied), then the user-info error (when user info is
supplied). -/
def validatePassword (password : String) (confirmPassword : Option String)
    (userInfo : Option UserInfo) : PwResult :=
  let strengthCheck := validatePasswordStrength password
  let e1 := if strengthCheck.isValid then [] else strengthCheck.errors
  let e2 := match confirmPassword with
    | none => []
    | some c =>
        let matchCheck := validatePasswordMatch password c
        if matchCheck.isValid then [] else matchCheck.error.toList
  let e3 := match userInfo with
    | none => []
    | some info =>
        let userInfoCheck := validatePasswordNoUserInfo password info
        if userInfoCheck.isValid then [] else userInfoCheck.error.toList
  let allErrors := e1 ++ e2 ++ e3
  ⟨allErrors.isEmpty, allErrors⟩

/-! ## Data model: tokens, users, sessions, blacklist entries, store state -/

/-- A signed JWT, modelled by its (self-describing) payload.  `createToken` /
`createRefreshToken` spread the client metadata into the payload, so the
metadata fields live here too.  `iat` and `exp` are in seconds, as in JWT. -/
structure Token where
  id : Nat
  type : String
  tokenVersion : Nat
  jti : Nat
  iat : Nat
  exp : Nat
  ipAddress : String
  userAgent : String
deriving DecidableEq, Repr

/-- A credential record (the fields of `UserSchema` this subsystem reads or
writes).  `password` stores the bcrypt hash.  Timestamps are Option Nat in
milliseconds. -/
structure User where
  id : Nat
  firstname : String
  lastname : String
  email : String
  phone : Option String
  password : String
  passwordChangedAt : Option Nat
  lastPasswordChange : Option Nat
  tokenVersion : Nat
  loginAttempts : Nat
  lockUntil : Option Nat
  lastLogin : Option Nat
  isBlocked : Bool
  role : String
  userAward : String
deriving DecidableEq, Repr

/-- A document of the Post collection as consulted by the `pre("findOne")`
hook: its author and creation time. -/
structure Post where
  author : Nat
  createdAt : Nat
deriving DecidableEq, Repr

/-- A session record (`SessionSchema`). -/
structure Session where
  userId : Nat
  token : Token
  refreshToken : Option Token
  ipAddress : String
  userAgent : String
  lastActivity : Nat
  expiresAt : Nat
  isActive : Bool
deriving DecidableEq, Repr

/-- A revocation entry (`TokenBlacklistSchema`).  The metadata fields are
optional because some call sites omit them. -/
structure BlacklistEntry where
  token : Token
  userId : Nat
  reason : String
  expiresAt : Nat
  ipAddress : Option String
  userAgent : Option String
deriving DecidableEq, Repr

/-- The store: the four collections plus a counter supplying fresh random
values (`jti`) and fresh object ids. -/
structure St where
  users : List User
  sessions : List Session
  blacklist : List BlacklistEntry
  posts : List Post
  rand : Nat
deriving DecidableEq, Repr

/-- A typed failure as produced by `apiError(message, statusCode)`. -/
structure ApiError where
  message : String
  status : Nat
deriving DecidableEq, Repr

/-! ## Token service (`utils/generateToken.js`) -/

/-- Access-token lifetime: default `JWT_EXPIRES_IN = "2h"`, in seconds. -/
def accessTtlSec : Nat := 7200

/-- Refresh-token lifetime: default `JWT_REFRESH_EXPIRES_IN = "7d"`. -/
def refreshTtlSec : Nat := 604800

/-- `createToken`: a signed access token plus its `expiresAt` (ms); consumes
one fresh random value for the `jti`. -/
def createToken (st : St) (id tokenVersion : Nat) (meta : Metadata) (now : Nat) :
    (Token × Nat) × St :=
  ((⟨id, "access", tokenVersion, st.rand, now / 1000, now / 1000 + accessTtlSec,
      meta.ipAddress, meta.userAgent⟩,
    now + accessTtlSec * 1000),
   { st with rand := st.rand + 1 })

/-- `createRefreshToken`. -/
def createRefreshToken (st : St) (id tokenVersion : Nat) (meta : Metadata) (now : Nat) :
    (Token × Nat) × St :=
  ((⟨id, "refresh", tokenVersion, st.rand, now / 1000, now / 1000 + refreshTtlSec,
      meta.ipAddress, meta.userAgent⟩,
    now + refreshTtlSec * 1000),
   { st with rand := st.rand + 1 })

/-- JWT expiry as checked by `jwt.verify`: expired once the current time in
seconds reaches `exp`. -/
def tokenExpired (tok : Token) (now : Nat) : Bool :=
  decide (tok.exp ≤ now / 1000)

/-! ## Credential store helpers (`model/User.js`) -/

/-- The modelled bcrypt: an injective one-way tag (the spec treats hashing as
an opaque hash-and-compare capability). -/
def bcryptHash (p : String) : String :=
  "bcrypt$12$" ++ p

/-- `comparePassword`: `bcrypt.compare(candidate, stored)`. -/
def comparePassword (candidate stored : String) : Bool :=
  bcryptHash candidate == stored

/-- `User.findById` / lookup by `_id` (without the pre-findOne hook). -/
def findUserById (l : List User) (uid : Nat) : Option User :=
  l.find? (fun u => u.id == uid)

/-- `User.findOne({ email })`. -/
def findByEmail (l : List User) (email : String) : Option User :=
  l.find? (fun u => u.email == email)

/-- Update every user document matching `_id = uid` (Mongo update-by-id). -/
def updById (l : List User) (uid : Nat) (f : User → User) : List User :=
  l.map (fun u => if u.id = uid then f u else u)

/-- The `isLocked` virtual: `lockUntil` set and strictly in the future. -/
def isLocked (u : User) (now : Nat) : Bool :=
  match u.lockUntil with
  | some lockUntil => decide (now < lockUntil)
  | none => false

/-- `isTokenVersionValid`. -/
def isTokenVersionValid (u : User) (tokenVersion : Nat) : Bool :=
  u.tokenVersion == tokenVersion

/-- The increment branch of `incLoginAttempts`: bump the counter and, if the
bump reaches 5 while not currently locked, lock for 2 hours. -/
def incStep (u : User) (now : Nat) : User :=
  if u.loginAttempts + 1 ≥ 5 ∧ isLocked u now = false then
    { u with loginAttempts := u.loginAttempts + 1, lockUntil := some (now + 7200000) }
  else { u with loginAttempts := u.loginAttempts + 1 }

/-- `incLoginAttempts`: if a previous lock has expired, restart at 1 and clear
the lock; otherwise increment (locking at the fifth failure). -/
def incLoginAttempts (u : User) (now : Nat) : User :=
  match u.lockUntil with
  | some lockUntil =>
      if lockUntil < now then { u with loginAttempts := 1, lockUntil := none }
      else incStep u now
  | none => incStep u now

/-- `resetLoginAttempts`. -/
def resetLoginAttempts (u : User) (now : Nat) : User :=
  { u with loginAttempts := 0, lastLogin := some now, lockUntil := none }

/-- `Math.ceil((lockUntil - now) / 1000 / 60)`: remaining lock minutes. -/
def lockMinutesLeft (lockUntil now : Nat) : Nat :=
  (lockUntil - now + 59999) / 60000

/-- Award tier from the post count, as in the pre-findOne hook. -/
def awardOf (n : Nat) : String :=
  if n < 10 then "Bronze" else if n < 20 then "Silver" else "Gold"

/-- The `UserSchema.pre("findOne")` hook, run by every `findOne`/`findById`
with an `_id` condition: when the user authored at least one post, write back
`isBlocked` from the 30-day inactivity rule on the last post and rewrite
`userAward` from the post count (two update-by-id writes). -/
def preFindOneHook (st : St) (uid : Nat) (now : Nat) : St :=
  let posts := st.posts.filter (fun p => p.author == uid)
  match posts.getLast? with
  | none => st
  | some lastPost =>
      let inactive30 := decide (now - lastPost.createdAt > 30 * 86400000)
      let st1 := { st with
        users := updById st.users uid (fun u => { u with isBlocked := inactive30 }) }
      { st1 with
        users := updById st1.users uid (fun u => { u with userAward := awardOf posts.length }) }

/-- `User.findById` as executed by the controllers: the pre-findOne hook runs
first (it may write back), then the lookup reads the updated store. -/
def findByIdWithHook (st : St) (uid : Nat) (now : Nat) : Option User × St :=
  let st1 := preFindOneHook st uid now
  (findUserById st1.users uid, st1)

/-! ## Revocation ledger (`model/TokenBlacklist.js`) -/

/-- The `reason` enum of `TokenBlacklistSchema` — exactly the five values in
the source schema. -/
def blacklistReasons : List String :=
  ["logout", "password_change", "account_deleted", "forced_logout", "expired"]

/-- `TokenBlacklist.isBlacklisted`: an entry for this exact token value whose
expiry is still in the future. -/
def isBlacklisted (st : St) (tok : Token) (now : Nat) : Bool :=
  st.blacklist.any (fun e => e.token == tok && decide (now < e.expiresAt))

/-- `TokenBlacklist.blacklistToken` = `create(...)`: Mongoose validates the
`reason` enum, then the unique index on `token` rejects duplicates, then the
entry is inserted.  Failures are thrown (returned as `.error message`). -/
def blacklistToken (st : St) (tok : Token) (userId expiresAt : Nat)
    (reason : String) (meta : Option Metadata) : Except String St :=
  if ¬ blacklistReasons.contains reason then
    .error "TokenBlacklist validation failed: reason is not a valid enum value"
  else if st.blacklist.any (fun e => e.token == tok) then
    .error "E11000 duplicate key error: token"
  else
    .ok { st with blacklist :=
      ⟨tok, userId, reason, expiresAt, meta.map (·.ipAddress), meta.map (·.userAgent)⟩
        :: st.blacklist }

/-! ## Session registry (`model/Session.js`) -/

/-- `Session.create` for the session record opened on signup/login/refresh:
Mongoose requires a non-empty `ipAddress`, the unique index on `token`
rejects duplicates, then the record is inserted active with
`lastActivity = now`. -/
def sessionCreate (st : St) (userId : Nat) (tok : Token) (refreshTok : Option Token)
    (meta : Metadata) (expiresAt now : Nat) : Except String St :=
  if meta.ipAddress = "" then
    .error "Session validation failed: ipAddress is required"
  else if st.sessions.any (fun s => s.token == tok) then
    .error "E11000 duplicate key error: token"
  else
    .ok { st with sessions :=
      ⟨userId, tok, refreshTok, meta.ipAddress, meta.userAgent, now, expiresAt, true⟩
        :: st.sessions }

/-- `Session.findOne({ token, userId, isActive: true })`. -/
def findActiveSession (st : St) (tok : Token) (userId : Nat) : Option Session :=
  st.sessions.find? (fun s => s.token == tok && s.userId == userId && s.isActive)

/-- Persist a single-session mutation (`session.save()`), keyed by the unique
token value. -/
def saveSession (st : St) (tok : Token) (f : Session → Session) : St :=
  { st with sessions := st.sessions.map (fun s => if s.token == tok then f s else s) }

/-- `session.updateActivity()`. -/
def updateActivity (st : St) (s : Session) (now : Nat) : St :=
  saveSession st s.token (fun x => { x with lastActivity := now })

/-- `session.isInactive(maxInactivityMinutes)`. -/
def sessionIsInactive (s : Session) (now maxInactivityMinutes : Nat) : Bool :=
  decide (now - s.lastActivity > maxInactivityMinutes * 60000)

/-- `session.invalidate(reason)`: mark inactive and save, then blacklist the
session's access token with that reason (the blacklist call can throw — its
error propagates, but the deactivation has already been persisted). -/
def sessionInvalidate (st : St) (s : Session) (reason : String) :
    Except String St × St :=
  let st1 := saveSession st s.token (fun x => { x with isActive := false })
  match blacklistToken st1 s.token s.userId s.expiresAt reason
      (some ⟨s.ipAddress, s.userAgent⟩) with
  | .ok st2 => (.ok st2, st2)
  | .error e => (.error e, st1)

/-- The loop body of `invalidateAllUserSessions` over the snapshot of active
sessions: deactivate each and blacklist its token; a thrown blacklist error
aborts the loop with the partial state. -/
def invalidateLoop (st : St) (userId : Nat) (reason : String) :
    List Session → Except String St × St
  | [] => (.ok st, st)
  | s :: rest =>
      let st1 := saveSession st s.token (fun x => { x with isActive := false })
      match blacklistToken st1 s.token userId s.expiresAt reason
          (some ⟨s.ipAddress, s.userAgent⟩) with
      | .error e => (.error e, st1)
      | .ok st2 => invalidateLoop st2 userId reason rest

/-- `Session.invalidateAllUserSessions(userId, reason)`: snapshot the active
sessions of the user, invalidate each, return their count. -/
def invalidateAllUserSessions (st : St) (userId : Nat) (reason : String) :
    Except String (St × Nat) × St :=
  let snapshot := st.sessions.filter (fun s => s.userId == userId && s.isActive)
  match invalidateLoop st userId reason snapshot with
  | (.ok st2, _) => (.ok (st2, snapshot.length), st2)
  | (.error e, st1) => (.error e, st1)

/-- `Session.updateOne({ refreshToken, userId }, { $set: { isActive: false } })`
as used by token rotation: deactivate the first matching session. -/
def deactivateByRefreshToken (st : St) (rtok : Token) (userId : Nat) : St :=
  { st with sessions := deactivateFirst st.sessions rtok userId }
where
  deactivateFirst : List Session → Token → Nat → List Session
    | [], _, _ => []
    | s :: rest, rt, uid =>
        if s.refreshToken == some rt && s.userId == uid then
          { s with isActive := false } :: rest
        else s :: deactivateFirst rest rt uid

/-! ## Auth middleware (`middlwares/authMiddlwares.js`) -/

/-- The lock message of `requireSignIn` (middleware wording). -/
def lockedAuthMsg (m : Nat) : String :=
  "Your account is temporarily locked due to multiple failed login attempts. Try again in "
    ++ toString m ++ " minutes"

/-- The inactivity-timeout message (`SESSION_TIMEOUT_MINUTES` defaults 120). -/
def sessionTimeoutMsg : String :=
  "Your session expired due to 120 minutes of inactivity. Please login again"

/-- `requireSignIn`: the authenticate-request gate.  Checks in source order:
missing token, blacklist, signature/expiry/type, user existence (via
`findById`, which runs the pre-findOne hook), token version (blacklisting a
stale token), blocked, locked, then the optional session lookup with the
inactivity timeout and activity bump.  A raw store error thrown past the
middleware surfaces as a 500 with the raw message. -/
def requireSignIn (st : St) (tokOpt : Option Token) (now : Nat) :
    Except ApiError (User × Option Session) × St :=
  match tokOpt with
  | none =>
      (.error ⟨"You are not logged in. Please login to access this route", 401⟩, st)
  | some tok =>
    if isBlacklisted st tok now then
      (.error ⟨"Your session has been invalidated. Please login again", 401⟩, st)
    else if tokenExpired tok now then
      (.error ⟨"Your session has expired. Please login again", 401⟩, st)
    else if tok.type ≠ "access" then
      (.error ⟨"Invalid token. Please login again", 401⟩, st)
    else
      match findByIdWithHook st tok.id now with
      | (none, st1) =>
          (.error ⟨"The user that belongs to this token no longer exists", 401⟩, st1)
      | (some user, st1) =>
        if isTokenVersionValid user tok.tokenVersion = false then
          match blacklistToken st1 tok user.id (tok.exp * 1000) "password_change" none with
          | .ok st2 =>
              (.error ⟨"Your password was changed. Please login again", 401⟩, st2)
          | .error e => (.error ⟨e, 500⟩, st1)
        else if user.isBlocked then
          (.error ⟨"Your account has been blocked. Contact support for assistance", 403⟩, st1)
        else if isLocked user now then
          (.error ⟨lockedAuthMsg (lockMinutesLeft (user.lockUntil.getD 0) now), 403⟩, st1)
        else
          match findActiveSession st1 tok user.id with
          | some session =>
            if sessionIsInactive session now 120 then
              match sessionInvalidate st1 session "inactivity_timeout" with
              | (.ok st2, _) => (.error ⟨sessionTimeoutMsg, 401⟩, st2)
              | (.error e, st2) => (.error ⟨e, 500⟩, st2)
            else
              (.ok (user, some { session with lastActivity := now }),
               updateActivity st1 session now)
          | none => (.ok (user, none), st1)

/-! ## Auth controller operations -/

/-- The deserialized signup request body.  The source destructures only
firstname, lastname, email, password and phone; a caller-supplied `role` is
carried here to state the role-forcing property. -/
structure SignupBody where
  firstname : String
  lastname : String
  email : String
  password : String
  phone : Option String
  role : Option String
deriving DecidableEq, Repr

/-- The success payload of signup: token pair plus the sanitized identity
(`user.toObject()` with the password key deleted), as a key/value list. -/
structure SignupOk where
  token : Token
  refreshToken : Token
  data : List (String × String)
deriving DecidableEq, Repr

/-- The token pair returned by login / refresh. -/
structure TokenPair where
  token : Token
  refreshToken : Token
deriving DecidableEq, Repr

/-- `user.toObject()`: the persisted fields as a key/value list (the stored
`password` is the bcrypt hash). -/
def userToObject (u : User) : List (String × String) :=
  [("firstname", u.firstname), ("lastname", u.lastname), ("email", u.email),
   ("phone", u.phone.getD ""), ("password", u.password), ("role", u.role),
   ("tokenVersion", toString u.tokenVersion), ("userAward", u.userAward)]

/-- `delete obj[key]`. -/
def deleteField (obj : List (String × String)) (key : String) :
    List (String × String) :=
  obj.filter (fun p => p.fst ≠ key)

/-- The `role` enum of `UserSchema`. -/
def roleEnum : List String := ["user", "admin"]

/-- `User.create`: Mongoose validation (required fields, password minlength,
role enum), the unique index on email, then the pre-save hook hashes the
password; a new document starts with `tokenVersion = 0` and no lockout
state. -/
def userCreate (st : St) (firstname lastname email password : String)
    (phone : Option String) (role : String) : Except String (User × St) :=
  if firstname = "" ∨ lastname = "" ∨ email = "" ∨ password = "" then
    .error "User validation failed: required field missing"
  else if password.length < 8 then
    .error "User validation failed: password is shorter than the minimum allowed length"
  else if ¬ roleEnum.contains role then
    .error "User validation failed: role is not a valid enum value"
  else if st.users.any (fun u => u.email == email) then
    .error "E11000 duplicate key error: email"
  else
    let u : User :=
      ⟨st.rand, firstname, lastname, email, phone, bcryptHash password,
       none, none, 0, 0, none, none, false, role, "Bronze"⟩
    .ok (u, { st with users := u :: st.users, rand := st.rand + 1 })

/-- `signup`: validate password strength (with the request's own user info),
create the user with `role: 'user'` regardless of any caller-supplied role,
issue the token pair, open a session, and respond with the sanitized
identity. -/
def signup (st : St) (b : SignupBody) (meta : Metadata) (now : Nat) :
    Except ApiError SignupOk × St :=
  let passwordValidation :=
    validatePassword b.password none (some ⟨b.email, b.firstname, b.lastname⟩)
  if passwordValidation.isValid = false then
    (.error ⟨String.intercalate ", " passwordValidation.errors, 400⟩, st)
  else
    match userCreate st b.firstname b.lastname b.email b.password b.phone "user" with
    | .error e => (.error ⟨e, 500⟩, st)
    | .ok (user, st1) =>
      let ((accessToken, accessExpiresAt), st2) :=
        createToken st1 user.id user.tokenVersion meta now
      let ((refreshTok, _), st3) :=
        createRefreshToken st2 user.id user.tokenVersion meta now
      match sessionCreate st3 user.id accessToken (some refreshTok) meta
          accessExpiresAt now with
      | .error e => (.error ⟨e, 500⟩, st3)
      | .ok st4 =>
          (.ok ⟨accessToken, refreshTok, deleteField (userToObject user) "password"⟩, st4)

/-- `login`: find by email (identical error for unknown email and wrong
password), refuse locked then blocked accounts, compare the password
(incrementing the failure counter on mismatch), reset the counter on success,
then issue tokens and open a session.  The pre-findOne hook fires with an
undefined `_id` on this by-email lookup and is modelled as leaving the store
unchanged. -/
def login (st : St) (email password : String) (meta : Metadata) (now : Nat) :
    Except ApiError TokenPair × St :=
  match findByEmail st.users email with
  | none => (.error ⟨"Invalid Password or Email", 401⟩, st)
  | some user =>
    if isLocked user now then
      (.error ⟨"Account temporarily locked due to multiple failed login attempts. Try again in "
        ++ toString (lockMinutesLeft (user.lockUntil.getD 0) now) ++ " minutes", 403⟩, st)
    else if user.isBlocked then
      (.error ⟨"Your Account has been disabled", 403⟩, st)
    else if comparePassword password user.password = false then
      (.error ⟨"Invalid Password or Email", 401⟩,
       { st with users := updById st.users user.id (fun u => incLoginAttempts u now) })
    else
      let st1 := { st with users := updById st.users user.id (fun u => resetLoginAttempts u now) }
      let ((accessToken, accessExpiresAt), st2) :=
        createToken st1 user.id user.tokenVersion meta now
      let ((refreshTok, _), st3) :=
        createRefreshToken st2 user.id user.tokenVersion meta now
      match sessionCreate st3 user.id accessToken (some refreshTok) meta
          accessExpiresAt now with
      | .error e => (.error ⟨e, 500⟩, st3)
      | .ok st4 => (.ok ⟨accessToken, refreshTok⟩, st4)

/-- `changePassword`: verify the current password, validate the new one, save
(the pre-save hook re-hashes and bumps `tokenVersion`), then invalidate every
active session with reason `password_change`. -/
def changePassword (st : St) (uid : Nat) (currentPassword newPassword : String)
    (confirmPassword : Option String) (now : Nat) : Except ApiError String × St :=
  if currentPassword = "" ∨ newPassword = "" then
    (.error ⟨"Please provide current password and new password", 400⟩, st)
  else
    match findByIdWithHook st uid now with
    | (none, st1) => (.error ⟨"User not found", 404⟩, st1)
    | (some user, st1) =>
      if comparePassword currentPassword user.password = false then
        (.error ⟨"Current password is incorrect", 401⟩, st1)
      else
        let passwordValidation := validatePassword newPassword confirmPassword
          (some ⟨user.email, user.firstname, user.lastname⟩)
        if passwordValidation.isValid = false then
          (.error ⟨String.intercalate ", " passwordValidation.errors, 400⟩, st1)
        else
          let st2 := { st1 with users := updById st1.users uid (fun u =>
            { u with password := bcryptHash newPassword,
                     passwordChangedAt := some now,
                     lastPasswordChange := some now,
                     tokenVersion := u.tokenVersion + 1 }) }
          match invalidateAllUserSessions st2 uid "password_change" with
          | (.ok (st3, _), _) =>
              (.ok "Password changed successfully. Please login again with your new password.", st3)
          | (.error e, st3) => (.error ⟨e, 500⟩, st3)

/-- `refreshToken` (the rotation endpoint): blacklist check, verify
(expiry before type, as `jwt.verify` throws expiry first), user lookup via
`findById` (hook), version/blocked/locked checks, then blacklist the old
refresh token with reason `token_rotation`, deactivate the old session, and
issue + persist a fresh pair.  Any error thrown inside the try block is
mapped to the expired message when its text contains "expired" and to
"Invalid refresh token" otherwise, keeping whatever store writes already
happened. -/
def refreshToken (st : St) (rtokOpt : Option Token) (meta : Metadata) (now : Nat) :
    Except ApiError TokenPair × St :=
  match rtokOpt with
  | none => (.error ⟨"Refresh token is required", 400⟩, st)
  | some rtok =>
    if isBlacklisted st rtok now then
      (.error ⟨"Refresh token has been invalidated. Please login again", 401⟩, st)
    else if tokenExpired rtok now then
      (.error ⟨"Refresh token has expired. Please login again", 401⟩, st)
    else if rtok.type ≠ "refresh" then
      (.error ⟨"Invalid refresh token", 401⟩, st)
    else
      match findByIdWithHook st rtok.id now with
      | (none, st1) => (.error ⟨"User not found", 404⟩, st1)
      | (some user, st1) =>
        if isTokenVersionValid user rtok.tokenVersion = false then
          (.error ⟨"Your password was changed. Please login again", 401⟩, st1)
        else if user.isBlocked || isLocked user now then
          (.error ⟨"Your account has been disabled", 403⟩, st1)
        else
          match blacklistToken st1 rtok user.id (rtok.exp * 1000) "token_rotation" none with
          | .error e =>
              if strContains e "expired" then
                (.error ⟨"Refresh token has expired. Please login again", 401⟩, st1)
              else (.error ⟨"Invalid refresh token", 401⟩, st1)
          | .ok st2 =>
            let st3 := deactivateByRefreshToken st2 rtok user.id
            let ((newAccessToken, accessExpiresAt), st4) :=
              createToken st3 user.id user.tokenVersion meta now
            let ((newRefreshToken, _), st5) :=
              createRefreshToken st4 user.id user.tokenVersion meta now
            match sessionCreate st5 user.id newAccessToken (some newRefreshToken) meta
                accessExpiresAt now with
            | .error e =>
                if strContains e "expired" then
                  (.error ⟨"Refresh token has expired. Please login again", 401⟩, st5)
                else (.error ⟨"Invalid refresh token", 401⟩, st5)
            | .ok st6 => (.ok ⟨newAccessToken, newRefreshToken⟩, st6)

/-- `logout`: blacklist the current access token with reason `logout`, then,
when the middleware attached a session, invalidate it.  Any error inside the
try block becomes `"Logout failed"` (500), keeping the store writes already
made.  `reqToken`, `reqUserId` and `reqSession` are the request fields set by
`requireSignIn`. -/
def logout (st : St) (reqToken : Option Token) (reqUserId : Nat)
    (reqSession : Option Session) (meta : Metadata) (now : Nat) :
    Except ApiError String × St :=
  match reqToken with
  | none => (.error ⟨"No active session found", 400⟩, st)
  | some tok =>
    if tokenExpired tok now then
      (.error ⟨"Logout failed", 500⟩, st)
    else
      match blacklistToken st tok reqUserId (tok.exp * 1000) "logout" (some meta) with
      | .error _ => (.error ⟨"Logout failed", 500⟩, st)
      | .ok st1 =>
        match reqSession with
        | some session =>
          match sessionInvalidate st1 session "logout" with
          | (.ok st2, _) => (.ok "Logged out successfully", st2)
          | (.error _, st2) => (.error ⟨"Logout failed", 500⟩, st2)
        | none => (.ok "Logged out successfully", st1)

/-! ## Helper lemmas -/

theorem preFindOneHook_sessions (st : St) (uid now : Nat) :
    (preFindOneHook st uid now).sessions = st.sessions := by
  rcases h : (st.posts.filter (fun p => p.author == uid)).getLast? with _ | p <;>
    simp [preFindOneHook, h]

theorem preFindOneHook_blacklist (st : St) (uid now : Nat) :
    (preFindOneHook st uid now).blacklist = st.blacklist := by
  rcases h : (st.posts.filter (fun p => p.author == uid)).getLast? with _ | p <;>
    simp [preFindOneHook, h]

theorem findUserById_updById (l : List User) (uid : Nat) (f : User → User)
    (hid : ∀ u, (f u).id = u.id) :
    findUserById (updById l uid f) uid = (findUserById l uid).map f := by
  induction l with
  | nil => rfl
  | cons a t ih =>
    by_cases h : a.id = uid
    · simp [findUserById, updById, List.find?_cons, h, hid a]
    · simp only [findUserById, updById, List.map_cons] at *
      rw [if_neg h]
      simp only [List.find?_cons]
      have hb : (a.id == uid) = false := by simpa using h
      rw [hb]
      exact ih

theorem findByEmail_updById (l : List User) (e : String) (u : User) (f : User → User)
    (hfind : findByEmail l e = some u) (hemail : ∀ v, (f v).email = v.email) :
    findByEmail (updById l u.id f) e = some (f u) := by
  induction l with
  | nil => simp [findByEmail] at hfind
  | cons a t ih =>
    by_cases h : a.email = e
    · have ha : u = a := by
        simp [findByEmail, List.find?_cons, h] at hfind
        exact hfind.symm
      subst ha
      simp [findByEmail, updById, List.find?_cons, hemail, h]
    · have hb : (a.email == e) = false := by simpa using h
      simp only [findByEmail, List.find?_cons, hb] at hfind
      simp only [findByEmail, updById, List.map_cons, List.find?_cons]
      by_cases hid : a.id = u.id
      · rw [if_pos hid]
        have : ((f a).email == e) = false := by simpa [hemail a] using h
        rw [this]
        exact ih hfind
      · rw [if_neg hid, hb]
        exact ih hfind

/-! ## C1 scenario: a perfectly valid rotation request -/

/-- The credential for the C1/C5 scenarios. -/
def cUser : User :=
  ⟨1, "Al", "Jo", "a@b.c", none, bcryptHash "Xk9!mqPz2w",
   none, none, 0, 0, none, none, false, "user", "Bronze"⟩

/-- A well-formed, unexpired refresh token for `cUser`, version 0. -/
def cRefreshTok : Token := ⟨1, "refresh", 0, 100, 0, 604800, "1.2.3.4", "UA"⟩

/-- The matching access token of the same session. -/
def cAccessTok : Token := ⟨1, "access", 0, 99, 0, 7200, "1.2.3.4", "UA"⟩

/-- The active session opened at login for `cUser`. -/
def cSession : Session :=
  ⟨1, cAccessTok, some cRefreshTok, "1.2.3.4", "UA", 0, 7200000, true⟩

/-- Store state: one unblocked, unlocked user with one active session and an
empty blacklist. -/
def cSt : St := ⟨[cUser], [cSession], [], [], 200⟩

def cMeta : Metadata := ⟨"1.2.3.4", "UA"⟩

/-- C1: the claim says a refresh presenting a well-formed, unexpired,
non-revoked refresh token of a valid user revokes the old token with reason
`token_rotation`, deactivates the old session and returns a fresh pair.  The
code cannot do this: `TokenBlacklistSchema`'s `reason` enum has no
`token_rotation` member, so the revocation insert fails Mongoose validation,
the catch block maps the error to 401 "Invalid refresh token", and the store
is left completely unchanged — no revocation entry, session still active, no
new tokens. -/
theorem claim1_rotation_always_fails :
    blacklistReasons.contains "token_rotation" = false ∧
    refreshToken cSt (some cRefreshTok) cMeta 1000 =
      (.error ⟨"Invalid refresh token", 401⟩, cSt) := by
  exact ⟨rfl, rfl⟩

/-- C2: whenever the presented refresh-token value has an unexpired entry in
the revocation ledger, `refreshToken` fails with the revoked-token error
before issuing any tokens or touching any session state (the store is
returned unchanged). -/
theorem claim2_revoked_refresh_rejected_first (st : St) (rtok : Token)
    (e : BlacklistEntry) (meta : Metadata) (now : Nat)
    (he : e ∈ st.blacklist) (htok : e.token = rtok) (hexp : now < e.expiresAt) :
    refreshToken st (some rtok) meta now =
      (.error ⟨"Refresh token has been invalidated. Please login again", 401⟩, st) := by
  have hb : isBlacklisted st rtok now = true := by
    simp only [isBlacklisted, List.any_eq_true]
    exact ⟨e, he, by simp [htok, hexp]⟩
  simp [refreshToken, hb]

/-- Witness for C2 at a concrete store holding a revocation entry for the
replayed refresh token. -/
theorem claim2_witness :
    (⟨cRefreshTok, 1, "logout", 604800000, none, none⟩ : BlacklistEntry) ∈
      (⟨[cUser], [], [⟨cRefreshTok, 1, "logout", 604800000, none, none⟩], [], 0⟩ : St).blacklist ∧
    refreshToken ⟨[cUser], [], [⟨cRefreshTok, 1, "logout", 604800000, none, none⟩], [], 0⟩
        (some cRefreshTok) cMeta 1000 =
      (.error ⟨"Refresh token has been invalidated. Please login again", 401⟩,
       ⟨[cUser], [], [⟨cRefreshTok, 1, "logout", 604800000, none, none⟩], [], 0⟩) := by
  refine ⟨by simp, ?_⟩
  exact claim2_revoked_refresh_rejected_first _ _
    ⟨cRefreshTok, 1, "logout", 604800000, none, none⟩ _ _ (by simp) rfl (by decide)

/-- C5: the claim says an authenticated logout whose token resolves to an
active session revokes the token (reason `logout`), deactivates the session
and returns the success payload.  The code does revoke and deactivate, but
`session.invalidate('logout')` then inserts a second revocation entry for the
very same token value; the unique index on `token` rejects it, the thrown
duplicate-key error lands in the catch block, and the response is the 500
"Logout failed" error instead of the success payload. -/
theorem claim5_logout_with_session_returns_error :
    logout cSt (some cAccessTok) 1 (some cSession) cMeta 1000 =
      (.error ⟨"Logout failed", 500⟩,
       ⟨[cUser],
        [⟨1, cAccessTok, some cRefreshTok, "1.2.3.4", "UA", 0, 7200000, false⟩],
        [⟨cAccessTok, 1, "logout", 7200000, some "1.2.3.4", some "UA"⟩],
        [], 200⟩) := by
  rfl

/-! ## Signup claims (C6, C8) -/

theorem sessionCreate_ok_users (st : St) (uid : Nat) (tok : Token)
    (rtok : Option Token) (meta : Metadata) (expAt now : Nat) (st2 : St)
    (h : sessionCreate st uid tok rtok meta expAt now = .ok st2) :
    st2.users = st.users := by
  unfold sessionCreate at h
  split at h
  · cases h
  · split at h
    · cases h
    · injection h with h
      subst h
      rfl

theorem userCreate_ok (st : St) (firstname lastname email password : String)
    (phone : Option String) (role : String) (u : User) (st1 : St)
    (h : userCreate st firstname lastname email password phone role = .ok (u, st1)) :
    st1.users = u :: st.users ∧ u.role = role := by
  unfold userCreate at h
  split at h
  · cases h
  · split at h
    · cases h
    · split at h
      · cases h
      · split at h
        · cases h
        · simp only [Except.ok.injEq, Prod.mk.injEq] at h
          obtain ⟨hu, hst⟩ := h
          subst hu
          subst hst
          exact ⟨rfl, rfl⟩

theorem signup_ok_inv (st : St) (b : SignupBody) (meta : Metadata) (now : Nat)
    (ok : SignupOk) (st2 : St) (h : signup st b meta now = (.ok ok, st2)) :
    ∃ user st1,
      userCreate st b.firstname b.lastname b.email b.password b.phone "user" =
        .ok (user, st1) ∧
      ok.data = deleteField (userToObject user) "password" ∧
      st2.users = st1.users := by
  simp only [signup] at h
  by_cases hv : (validatePassword b.password none
      (some ⟨b.email, b.firstname, b.lastname⟩)).isValid = false
  · rw [if_pos hv] at h
    simp at h
  · rw [if_neg hv] at h
    rcases hC : userCreate st b.firstname b.lastname b.email b.password b.phone "user"
      with e | p
    · rw [hC] at h
      simp at h
    · obtain ⟨user, st1⟩ := p
      rw [hC] at h
      simp only [createToken, createRefreshToken] at h
      split at h
      · simp at h
      · rename_i st4 hsess
        simp only [Prod.mk.injEq, Except.ok.injEq] at h
        obtain ⟨hok, hst⟩ := h
        refine ⟨user, st1, rfl, ?_, ?_⟩
        · rw [← hok]
        · rw [← hst]
          have h2 := sessionCreate_ok_users _ _ _ _ _ _ _ _ hsess
          simpa using h2

/-- C6: the credential record created by signup always has role `"user"`
(the non-privileged default), and the whole outcome of signup is independent
of any caller-supplied `role` field: two requests differing only in the
supplied role produce identical results and stores. -/
theorem claim6_signup_role_forced :
    (∀ (st : St) (b : SignupBody) (meta : Metadata) (now : Nat) (ok : SignupOk) (st2 : St),
        signup st b meta now = (.ok ok, st2) →
        ∃ nu, st2.users = nu :: st.users ∧ nu.role = "user") ∧
    (∀ (st : St) (b : SignupBody) (meta : Metadata) (now : Nat) (r : Option String),
        signup st { b with role := r } meta now = signup st b meta now) := by
  constructor
  · intro st b meta now ok st2 h
    obtain ⟨user, st1, hcreate, _, husers⟩ := signup_ok_inv st b meta now ok st2 h
    obtain ⟨h1, h2⟩ := userCreate_ok _ _ _ _ _ _ _ _ _ hcreate
    exact ⟨user, by rw [husers, h1], h2⟩
  · intro st b meta now r
    rfl

deriving instance DecidableEq for Except

/-- The concrete successful signup used by the C6/C8 witnesses. -/
def wBody : SignupBody := ⟨"Al", "Jo", "a2@b.c", "Xk9!mqPz2w", none, some "admin"⟩

/-- The credential record that signup creates from `wBody` on an empty store. -/
def wUser : User :=
  ⟨0, "Al", "Jo", "a2@b.c", none, bcryptHash "Xk9!mqPz2w",
   none, none, 0, 0, none, none, false, "user", "Bronze"⟩

def wAccessTok : Token := ⟨0, "access", 0, 1, 0, 7200, "1.2.3.4", "UA"⟩

def wRefreshTok : Token := ⟨0, "refresh", 0, 2, 0, 604800, "1.2.3.4", "UA"⟩

/-- The store after the witness signup. -/
def wStOut : St :=
  ⟨[wUser], [⟨0, wAccessTok, some wRefreshTok, "1.2.3.4", "UA", 0, 7200000, true⟩],
   [], [], 3⟩

/-- Witness for C6: the concrete signup succeeds and its created record has
role `"user"` even though the request body supplied `role: "admin"`. -/
theorem claim6_witness :
    signup ⟨[], [], [], [], 0⟩ wBody cMeta 0 =
      (.ok ⟨wAccessTok, wRefreshTok, deleteField (userToObject wUser) "password"⟩, wStOut) ∧
    ∃ nu, wStOut.users = nu :: (⟨[], [], [], [], 0⟩ : St).users ∧ nu.role = "user" := by
  refine ⟨by decide, ?_⟩
  exact claim6_signup_role_forced.1 ⟨[], [], [], [], 0⟩ wBody cMeta 0
    ⟨wAccessTok, wRefreshTok, deleteField (userToObject wUser) "password"⟩ wStOut (by decide)

/-- C8: the identity payload returned by a successful signup never contains a
`password` key (the stored bcrypt hash is deleted from `user.toObject()`
before responding). -/
theorem claim8_signup_response_has_no_password (st : St) (b : SignupBody)
    (meta : Metadata) (now : Nat) (ok : SignupOk) (st2 : St)
    (h : signup st b meta now = (.ok ok, st2)) :
    ∀ kv ∈ ok.data, kv.1 ≠ "password" := by
  obtain ⟨user, st1, _, hdata, _⟩ := signup_ok_inv st b meta now ok st2 h
  intro kv hkv
  rw [hdata] at hkv
  unfold deleteField at hkv
  have h2 := (List.mem_filter.mp hkv).2
  simpa using h2

/-- Witness for C8 at the concrete successful signup. -/
theorem claim8_witness :
    signup ⟨[], [], [], [], 0⟩ wBody cMeta 0 =
      (.ok ⟨wAccessTok, wRefreshTok, deleteField (userToObject wUser) "password"⟩, wStOut) ∧
    ∀ kv ∈ (deleteField (userToObject wUser) "password"), kv.1 ≠ "password" := by
  refine ⟨by decide, ?_⟩
  exact claim8_signup_response_has_no_password ⟨[], [], [], [], 0⟩ wBody cMeta 0
    ⟨wAccessTok, wRefreshTok, deleteField (userToObject wUser) "password"⟩ wStOut (by decide)

/-! ## C7: error enumeration in password validation -/

/-- Counterexample to C7: with first name "Alice", last name "Smith" and
password "Alicesmith1!", the password contains BOTH the first name and the
last name (both rules apply, `"Smith".length ≥ 3`), yet the signup failure
message is exactly the first-name message alone — the violated last-name rule
is not listed, so the message is a strict subset of the violated rules. -/
theorem claim7_counterexample :
    strContains (lowerStr "Alicesmith1!") (lowerStr "Smith") = true ∧
    ("Smith" : String).length ≥ 3 ∧
    (signup ⟨[], [], [], [], 0⟩ ⟨"Alice", "Smith", "bob@x.com", "Alicesmith1!", none, none⟩
        cMeta 0).1 = .error ⟨msgFirstName, 400⟩ := by
  exact ⟨by decide, by decide, by decide⟩

/-- The eight strength-rule messages, in push order. -/
def strengthMsgs : List String :=
  [msgMinLen, msgMaxLen, msgUpper, msgLower, msgDigit, msgSpecial, msgCommon, msgRepeat]

theorem mem_of_ite_singleton {c : Prop} [Decidable c] {m a : String}
    (h : a ∈ (if c then [m] else [])) : a = m := by
  split at h
  · simpa using h
  · simp at h

theorem strength_errors_subset (pw : String) :
    ∀ m ∈ (validatePasswordStrength pw).errors, m ∈ strengthMsgs := by
  intro m hm
  simp only [validatePasswordStrength, List.mem_append] at hm
  rcases hm with ((((((h | h) | h) | h) | h) | h) | h) | h <;>
    rw [mem_of_ite_singleton h] <;> simp [strengthMsgs]

theorem noUserInfo_eq (password : String) (info : UserInfo) :
    validatePasswordNoUserInfo password info =
      if info.email ≠ "" ∧
          strContains (lowerStr password) (lowerStr (emailLocalPart info.email)) then
        ⟨false, some msgEmailPart⟩
      else if info.firstname.length ≥ 3 ∧
          strContains (lowerStr password) (lowerStr info.firstname) then
        ⟨false, some msgFirstName⟩
      else if info.lastname.length ≥ 3 ∧
          strContains (lowerStr password) (lowerStr info.lastname) then
        ⟨false, some msgLastName⟩
      else ⟨true, none⟩ := rfl

theorem validatePassword_errors (pw : String) (cf : Option String) (ui : Option UserInfo) :
    (validatePassword pw cf ui).errors =
      (validatePasswordStrength pw).errors
      ++ cf.elim [] (fun c => if pw ≠ c then [msgMatch] else [])
      ++ ui.elim [] (fun i => (validatePasswordNoUserInfo pw i).error.toList) := by
  simp only [validatePassword]
  have p1 : (if (validatePasswordStrength pw).isValid = true then []
      else (validatePasswordStrength pw).errors) = (validatePasswordStrength pw).errors := by
    by_cases h : (validatePasswordStrength pw).errors.isEmpty
    · simp only [validatePasswordStrength] at h ⊢
      rw [if_pos h]
      exact (List.isEmpty_iff.mp h).symm
    · simp only [validatePasswordStrength] at h ⊢
      rw [if_neg h]
  rw [p1]
  congr 1
  congr 1
  · cases cf with
    | none => rfl
    | some c =>
      dsimp only [Option.elim_some]
      by_cases h : pw ≠ c <;> simp [validatePasswordMatch, h]
  · cases ui with
    | none => rfl
    | some i =>
      dsimp only [Option.elim_some]
      rw [noUserInfo_eq]
      by_cases h1 : i.email ≠ "" ∧
          strContains (lowerStr pw) (lowerStr (emailLocalPart i.email))
      · simp [h1]
      · by_cases h2 : i.firstname.length ≥ 3 ∧
            strContains (lowerStr pw) (lowerStr i.firstname)
        · simp [h1, h2]
        · by_cases h3 : i.lastname.length ≥ 3 ∧
              strContains (lowerStr pw) (lowerStr i.lastname)
          · simp [h1, h2, h3]
          · simp [h1, h2, h3]

theorem mem_match_part {cf : Option String} {pw m : String}
    (h : m ∈ cf.elim ([] : List String) (fun c => if pw ≠ c then [msgMatch] else [])) :
    m = msgMatch := by
  cases cf with
  | none => simp at h
  | some c =>
    rw [Option.elim_some] at h
    exact mem_of_ite_singleton h

/-- C7 amended: every violated strength rule is listed (the whole strength
error list is included), and a violated confirm-match rule is listed, but of
the three user-info containment rules only the FIRST violated one — in the
order email local part, first name, last name — is ever listed: when the
email rule fires neither name message appears, and when the first-name rule
fires the last-name message never appears even if that rule is also
violated. -/
theorem claim7_amended (password : String) (confirm : Option String) (info : UserInfo) :
    (∀ m ∈ (validatePasswordStrength password).errors,
        m ∈ (validatePassword password confirm (some info)).errors) ∧
    (∀ c, confirm = some c → password ≠ c →
        msgMatch ∈ (validatePassword password confirm (some info)).errors) ∧
    ((info.email ≠ "" ∧
        strContains (lowerStr password) (lowerStr (emailLocalPart info.email))) →
      msgEmailPart ∈ (validatePassword password confirm (some info)).errors ∧
      msgFirstName ∉ (validatePassword password confirm (some info)).errors ∧
      msgLastName ∉ (validatePassword password confirm (some info)).errors) ∧
    (¬(info.email ≠ "" ∧
        strContains (lowerStr password) (lowerStr (emailLocalPart info.email))) →
     (info.firstname.length ≥ 3 ∧
        strContains (lowerStr password) (lowerStr info.firstname)) →
      msgFirstName ∈ (validatePassword password confirm (some info)).errors ∧
      msgLastName ∉ (validatePassword password confirm (some info)).errors) ∧
    (¬(info.email ≠ "" ∧
        strContains (lowerStr password) (lowerStr (emailLocalPart info.email))) →
     ¬(info.firstname.length ≥ 3 ∧
        strContains (lowerStr password) (lowerStr info.firstname)) →
     (info.lastname.length ≥ 3 ∧
        strContains (lowerStr password) (lowerStr info.lastname)) →
      msgLastName ∈ (validatePassword password confirm (some info)).errors) := by
  rw [validatePassword_errors]
  simp only [Option.elim_some]
  refine ⟨?_, ?_, ?_, ?_, ?_⟩
  · intro m hm
    simp [List.mem_append, hm]
  · intro c hc hne
    subst hc
    simp [List.mem_append, hne]
  · intro hE
    rw [noUserInfo_eq, if_pos hE]
    refine ⟨by simp, ?_, ?_⟩
    · intro hmem
      rcases List.mem_append.mp hmem with hmem | hmem
      · rcases List.mem_append.mp hmem with hmem | hmem
        · exact absurd (strength_errors_subset password _ hmem) (by decide)
        · exact absurd (mem_match_part hmem) (by decide)
      · simp at hmem
        exact absurd hmem (by decide)
    · intro hmem
      rcases List.mem_append.mp hmem with hmem | hmem
      · rcases List.mem_append.mp hmem with hmem | hmem
        · exact absurd (strength_errors_subset password _ hmem) (by decide)
        · exact absurd (mem_match_part hmem) (by decide)
      · simp at hmem
        exact absurd hmem (by decide)
  · intro hE hF
    rw [noUserInfo_eq, if_neg hE, if_pos hF]
    refine ⟨by simp, ?_⟩
    intro hmem
    rcases List.mem_append.mp hmem with hmem | hmem
    · rcases List.mem_append.mp hmem with hmem | hmem
      · exact absurd (strength_errors_subset password _ hmem) (by decide)
      · exact absurd (mem_match_part hmem) (by decide)
    · simp at hmem
      exact absurd hmem (by decide)
  · intro hE hF hL
    rw [noUserInfo_eq, if_neg hE, if_neg hF, if_pos hL]
    simp

/-- Witness for the amended C7 at a concrete input where the first-name and
last-name rules are both violated: only the first-name message is produced. -/
theorem claim7_amended_witness :
    (¬((⟨"bob@x.com", "Alice", "Smith"⟩ : UserInfo).email ≠ "" ∧
        strContains (lowerStr "Alicesmith1!")
          (lowerStr (emailLocalPart (⟨"bob@x.com", "Alice", "Smith"⟩ : UserInfo).email)))) ∧
    ((⟨"bob@x.com", "Alice", "Smith"⟩ : UserInfo).firstname.length ≥ 3 ∧
        strContains (lowerStr "Alicesmith1!")
          (lowerStr (⟨"bob@x.com", "Alice", "Smith"⟩ : UserInfo).firstname)) ∧
    (msgFirstName ∈
        (validatePassword "Alicesmith1!" none (some ⟨"bob@x.com", "Alice", "Smith"⟩)).errors ∧
      msgLastName ∉
        (validatePassword "Alicesmith1!" none (some ⟨"bob@x.com", "Alice", "Smith"⟩)).errors) := by
  refine ⟨by decide, by decide, ?_⟩
  exact (claim7_amended "Alicesmith1!" none ⟨"bob@x.com", "Alice", "Smith"⟩).2.2.2.1
    (by decide) (by decide)

/-! ## C9: the pre-findOne hook writes on reads; C10: session is optional -/

/-- C9: every `findOne`/`findById` with an `_id` condition runs the
pre-findOne hook; whenever the user authored at least one post, the read
writes back to the store: `isBlocked` becomes true exactly when the most
recent (last) post is older than 30 days, and `userAward` is rewritten from
the post count — so a pure credential read can flip the blocked flag. -/
theorem claim9_pre_findOne_hook_writes_on_read (st : St) (uid now : Nat)
    (u : User) (lastPost : Post)
    (hfind : findUserById st.users uid = some u)
    (hlast : (st.posts.filter (fun p => p.author == uid)).getLast? = some lastPost) :
    (findByIdWithHook st uid now).1 =
      some { u with
        isBlocked := decide (now - lastPost.createdAt > 30 * 86400000),
        userAward := awardOf (st.posts.filter (fun p => p.author == uid)).length } := by
  show findUserById (preFindOneHook st uid now).users uid = _
  simp only [preFindOneHook, hlast]
  rw [findUserById_updById _ uid
      (fun v => { v with
        userAward := awardOf (st.posts.filter (fun p => p.author == uid)).length })
      (fun v => rfl),
    findUserById_updById _ uid
      (fun v => { v with
        isBlocked := decide (now - lastPost.createdAt > 30 * 86400000) })
      (fun v => rfl),
    hfind]
  rfl

/-- Witness for C9: a user whose single post is 31 days old gets blocked by
the mere read. -/
theorem claim9_witness :
    findUserById [(⟨1, "Al", "Jo", "a@b.c", none, "h", none, none, 0, 0, none, none,
        false, "user", "Bronze"⟩ : User)] 1 =
      some ⟨1, "Al", "Jo", "a@b.c", none, "h", none, none, 0, 0, none, none,
        false, "user", "Bronze"⟩ ∧
    ((( ⟨[⟨1, "Al", "Jo", "a@b.c", none, "h", none, none, 0, 0, none, none,
        false, "user", "Bronze"⟩], [], [], [⟨1, 0⟩], 0⟩ : St).posts.filter
          (fun p => p.author == 1)).getLast? = some ⟨1, 0⟩) ∧
    (findByIdWithHook ⟨[⟨1, "Al", "Jo", "a@b.c", none, "h", none, none, 0, 0, none, none,
        false, "user", "Bronze"⟩], [], [], [⟨1, 0⟩], 0⟩ 1 2678400001).1 =
      some { (⟨1, "Al", "Jo", "a@b.c", none, "h", none, none, 0, 0, none, none,
        false, "user", "Bronze"⟩ : User) with
          isBlocked := decide (2678400001 - (0 : Nat) > 30 * 86400000),
          userAward := awardOf 1 } := by
  refine ⟨by decide, by decide, ?_⟩
  exact claim9_pre_findOne_hook_writes_on_read _ 1 2678400001 _ ⟨1, 0⟩
    (by decide) (by decide)

/-- C10: when the token passes the extraction, revocation, expiry, type,
user-existence, version, blocked and locked checks but NO active session
record matches it, `requireSignIn` still succeeds: the request proceeds with
no session attached, the session store is untouched, and no revocation is
recorded (only the pre-findOne hook may have rewritten the credential). -/
theorem claim10_auth_succeeds_without_session (st : St) (tok : Token)
    (now : Nat) (u : User)
    (hbl : isBlacklisted st tok now = false)
    (hexp : tokenExpired tok now = false)
    (hty : tok.type = "access")
    (hfind : (findByIdWithHook st tok.id now).1 = some u)
    (hver : isTokenVersionValid u tok.tokenVersion = true)
    (hblk : u.isBlocked = false)
    (hlock : isLocked u now = false)
    (hsess : findActiveSession st tok u.id = none) :
    requireSignIn st (some tok) now = (.ok (u, none), preFindOneHook st tok.id now) ∧
    (preFindOneHook st tok.id now).sessions = st.sessions ∧
    (preFindOneHook st tok.id now).blacklist = st.blacklist := by
  refine ⟨?_, preFindOneHook_sessions st tok.id now, preFindOneHook_blacklist st tok.id now⟩
  have hpair : findByIdWithHook st tok.id now = (some u, preFindOneHook st tok.id now) :=
    Prod.ext_iff.mpr ⟨hfind, rfl⟩
  have hsess1 : findActiveSession (preFindOneHook st tok.id now) tok u.id = none := by
    unfold findActiveSession
    rw [preFindOneHook_sessions]
    exact hsess
  simp only [requireSignIn, hbl, hexp, hty, hpair, hver, hblk, hlock, hsess1]
  simp

/-- Witness for C10: a concrete store with one user, an empty session store
and an empty blacklist. -/
theorem claim10_witness :
    isBlacklisted ⟨[cUser], [], [], [], 0⟩ cAccessTok 1000 = false ∧
    tokenExpired cAccessTok 1000 = false ∧
    cAccessTok.type = "access" ∧
    (findByIdWithHook ⟨[cUser], [], [], [], 0⟩ cAccessTok.id 1000).1 = some cUser ∧
    isTokenVersionValid cUser cAccessTok.tokenVersion = true ∧
    cUser.isBlocked = false ∧
    isLocked cUser 1000 = false ∧
    findActiveSession ⟨[cUser], [], [], [], 0⟩ cAccessTok cUser.id = none ∧
    requireSignIn ⟨[cUser], [], [], [], 0⟩ (some cAccessTok) 1000 =
      (.ok (cUser, none), preFindOneHook ⟨[cUser], [], [], [], 0⟩ cAccessTok.id 1000) := by
  refine ⟨by decide, by decide, by decide, by decide, by decide, by decide, by decide,
    by decide, ?_⟩
  exact (claim10_auth_succeeds_without_session ⟨[cUser], [], [], [], 0⟩ cAccessTok 1000 cUser
    (by decide) (by decide) (by decide) (by decide) (by decide) (by decide) (by decide)
    (by decide)).1

/-! ## C3: password change bumps tokenVersion and stales old access tokens -/

theorem blacklistToken_ok_users (st : St) (tok : Token) (uid expAt : Nat)
    (reason : String) (meta : Option Metadata) (st2 : St)
    (h : blacklistToken st tok uid expAt reason meta = .ok st2) : st2.users = st.users := by
  unfold blacklistToken at h
  split at h
  · cases h
  · split at h
    · cases h
    · injection h with h
      rw [← h]

theorem invalidateLoop_users (ss : List Session) : ∀ (st : St) (uid : Nat) (r : String),
    (invalidateLoop st uid r ss).2.users = st.users ∧
    (∀ s2, (invalidateLoop st uid r ss).1 = .ok s2 → s2.users = st.users) := by
  induction ss with
  | nil =>
    intro st uid r
    exact ⟨rfl, fun s2 h => by injection h with h; rw [← h]⟩
  | cons s rest ih =>
    intro st uid r
    simp only [invalidateLoop]
    rcases hb : blacklistToken (saveSession st s.token (fun x => { x with isActive := false }))
        s.token uid s.expiresAt r (some ⟨s.ipAddress, s.userAgent⟩) with e | st2
    · exact ⟨rfl, fun s2 h => by cases h⟩
    · have h1 := blacklistToken_ok_users _ _ _ _ _ _ _ hb
      have husers : st2.users = st.users := h1
      obtain ⟨ih1, ih2⟩ := ih st2 uid r
      exact ⟨by rw [ih1, husers], fun s2 h => by rw [ih2 s2 h, husers]⟩

theorem changePassword_ok_bumps_version (st : St) (uid : Nat) (cur new : String)
    (confirm : Option String) (now : Nat) (m : String) (st2 : St) (u : User)
    (h : changePassword st uid cur new confirm now = (.ok m, st2))
    (hfind : (findByIdWithHook st uid now).1 = some u) :
    ∃ u2, findUserById st2.users uid = some u2 ∧
      u2.tokenVersion = u.tokenVersion + 1 ∧ u2.password = bcryptHash new := by
  have hpair : findByIdWithHook st uid now = (some u, preFindOneHook st uid now) :=
    Prod.ext_iff.mpr ⟨hfind, rfl⟩
  simp only [changePassword] at h
  split at h
  · simp at h
  · rw [hpair] at h
    dsimp only at h
    split at h
    · simp at h
    · split at h
      · simp at h
      · split at h
        · rename_i x st3 n heq
          simp only [Prod.mk.injEq, Except.ok.injEq] at h
          obtain ⟨_, hst⟩ := h
          subst hst
          -- recover the loop result from heq
          simp only [invalidateAllUserSessions] at heq
          rcases hl : invalidateLoop _ uid "password_change"
              (List.filter (fun s => s.userId == uid && s.isActive) _) with ⟨exc, stF⟩
          rw [hl] at heq
          cases exc with
          | error e => simp at heq
          | ok s2 =>
            simp only [Prod.mk.injEq, Except.ok.injEq] at heq
            obtain ⟨⟨hs2, _⟩, _⟩ := heq
            have hloop := (invalidateLoop_users _ _ uid "password_change").2 s2
              (by rw [hl])
            refine ⟨{ u with
              password := bcryptHash new, passwordChangedAt := some now,
              lastPasswordChange := some now, tokenVersion := u.tokenVersion + 1 },
              ?_, rfl, rfl⟩
            rw [← hs2, hloop]
            have hupd := findUserById_updById (preFindOneHook st uid now).users uid
              (fun v => { v with
                password := bcryptHash new, passwordChangedAt := some now,
                lastPasswordChange := some now, tokenVersion := v.tokenVersion + 1 })
              (fun v => rfl)
            rw [hupd, show (findUserById (preFindOneHook st uid now).users uid) = some u
              from hfind]
            rfl
        · simp at h

theorem requireSignIn_stale_fails (st : St) (tok : Token) (now : Nat) (u : User)
    (hexp : tokenExpired tok now = false)
    (hty : tok.type = "access")
    (hfind : (findByIdWithHook st tok.id now).1 = some u)
    (hver : u.tokenVersion ≠ tok.tokenVersion)
    (hent : ∀ e ∈ st.blacklist, e.token = tok → now < e.expiresAt) :
    ∃ msg, (requireSignIn st (some tok) now).1 = .error msg ∧ msg.status = 401 ∧
      (msg.message = "Your session has been invalidated. Please login again" ∨
       msg.message = "Your password was changed. Please login again") := by
  by_cases hbl : isBlacklisted st tok now = true
  · refine ⟨⟨"Your session has been invalidated. Please login again", 401⟩, ?_, rfl, Or.inl rfl⟩
    simp [requireSignIn, hbl]
  · have hbl' : isBlacklisted st tok now = false := by simpa using hbl
    have hpair : findByIdWithHook st tok.id now = (some u, preFindOneHook st tok.id now) :=
      Prod.ext_iff.mpr ⟨hfind, rfl⟩
    have hnone : ((preFindOneHook st tok.id now).blacklist.any
        (fun e => e.token == tok)) = false := by
      rw [preFindOneHook_blacklist]
      by_contra hc
      have hb2 : st.blacklist.any (fun e => e.token == tok) = true := by
        simpa using hc
      rw [List.any_eq_true] at hb2
      obtain ⟨e, he, hetok⟩ := hb2
      have hetok2 : e.token = tok := by simpa using hetok
      have hbt : isBlacklisted st tok now = true := by
        simp only [isBlacklisted, List.any_eq_true]
        exact ⟨e, he, by simp [hetok2, hent e he hetok2]⟩
      exact absurd hbt hbl
    have hverb : isTokenVersionValid u tok.tokenVersion = false := by
      simp only [isTokenVersionValid, beq_eq_false_iff_ne, ne_eq]
      exact hver
    have hbt : blacklistToken (preFindOneHook st tok.id now) tok u.id (tok.exp * 1000)
        "password_change" none =
        .ok { (preFindOneHook st tok.id now) with blacklist :=
          ⟨tok, u.id, "password_change", tok.exp * 1000, none, none⟩ ::
            (preFindOneHook st tok.id now).blacklist } := by
      unfold blacklistToken
      rw [if_neg (by decide), if_neg (by simp [hnone])]
      rfl
    refine ⟨⟨"Your password was changed. Please login again", 401⟩, ?_, rfl, Or.inr rfl⟩
    simp only [requireSignIn, hbl', hexp, hty, hpair, hverb, hbt]
    simp

/-- C3: (a) a successful `changePassword` stores the re-hashed password and a
`tokenVersion` incremented by exactly one; (b) any access token whose
embedded version differs from the credential's current version — still
well-typed and unexpired, with the user present — fails `requireSignIn` with
a 401 whose message is either the revoked-token message or the
stale-password message, on this and on every subsequent call while the
mismatch persists. -/
theorem claim3_password_change_invalidates_old_tokens :
    (∀ (st : St) (uid : Nat) (cur new : String) (confirm : Option String) (now : Nat)
        (m : String) (st2 : St) (u : User),
      changePassword st uid cur new confirm now = (.ok m, st2) →
      (findByIdWithHook st uid now).1 = some u →
      ∃ u2, findUserById st2.users uid = some u2 ∧
        u2.tokenVersion = u.tokenVersion + 1 ∧ u2.password = bcryptHash new) ∧
    (∀ (st : St) (tok : Token) (now : Nat) (u : User),
      tokenExpired tok now = false →
      tok.type = "access" →
      (findByIdWithHook st tok.id now).1 = some u →
      u.tokenVersion ≠ tok.tokenVersion →
      (∀ e ∈ st.blacklist, e.token = tok → now < e.expiresAt) →
      ∃ msg, (requireSignIn st (some tok) now).1 = .error msg ∧ msg.status = 401 ∧
        (msg.message = "Your session has been invalidated. Please login again" ∨
         msg.message = "Your password was changed. Please login again")) :=
  ⟨changePassword_ok_bumps_version, requireSignIn_stale_fails⟩

/-- The credential, store and old access token of the C3 witness scenario. -/
def c3User : User :=
  ⟨1, "Al", "Jo", "a@b.c", none, bcryptHash "OldPw99!x",
   none, none, 0, 0, none, none, false, "user", "Bronze"⟩

def c3St : St := ⟨[c3User], [], [], [], 7⟩

/-- The credential after the password change: version bumped to 1. -/
def c3User2 : User :=
  ⟨1, "Al", "Jo", "a@b.c", none, bcryptHash "Xk9!mqPz2w",
   some 50, some 50, 1, 0, none, none, false, "user", "Bronze"⟩

def c3St2 : St := ⟨[c3User2], [], [], [], 7⟩

/-- The access token issued before the change: embedded version 0. -/
def c3Tok : Token := ⟨1, "access", 0, 42, 0, 7200, "1.2.3.4", "UA"⟩

/-- Witness for C3: the concrete password change succeeds and bumps the
version from 0 to 1, and the pre-change access token then fails
`requireSignIn`. -/
theorem claim3_witness :
    changePassword c3St 1 "OldPw99!x" "Xk9!mqPz2w" none 50 =
      (.ok "Password changed successfully. Please login again with your new password.",
       c3St2) ∧
    (findByIdWithHook c3St 1 50).1 = some c3User ∧
    (∃ u2, findUserById c3St2.users 1 = some u2 ∧
      u2.tokenVersion = c3User.tokenVersion + 1 ∧
      u2.password = bcryptHash "Xk9!mqPz2w") ∧
    tokenExpired c3Tok 60 = false ∧
    c3Tok.type = "access" ∧
    (findByIdWithHook c3St2 c3Tok.id 60).1 = some c3User2 ∧
    c3User2.tokenVersion ≠ c3Tok.tokenVersion ∧
    (∀ e ∈ c3St2.blacklist, e.token = c3Tok → 60 < e.expiresAt) ∧
    (∃ msg, (requireSignIn c3St2 (some c3Tok) 60).1 = .error msg ∧ msg.status = 401 ∧
      (msg.message = "Your session has been invalidated. Please login again" ∨
       msg.message = "Your password was changed. Please login again")) := by
  refine ⟨by decide, by decide, ?_, by decide, by decide, by decide, by decide, by decide, ?_⟩
  · exact claim3_password_change_invalidates_old_tokens.1 c3St 1 "OldPw99!x" "Xk9!mqPz2w"
      none 50
      "Password changed successfully. Please login again with your new password."
      c3St2 c3User (by decide) (by decide)
  · exact claim3_password_change_invalidates_old_tokens.2 c3St2 c3Tok 60 c3User2
      (by decide) (by decide) (by decide) (by decide) (by decide)

/-! ## C4: brute-force lockout cycle -/

theorem incLoginAttempts_fields (v : User) (now : Nat) :
    (incLoginAttempts v now).email = v.email ∧ (incLoginAttempts v now).id = v.id := by
  unfold incLoginAttempts incStep
  cases h : v.lockUntil with
  | none =>
    dsimp only
    by_cases hc : v.loginAttempts + 1 ≥ 5 ∧ isLocked v now = false
    · rw [if_pos hc]; exact ⟨rfl, rfl⟩
    · rw [if_neg hc]; exact ⟨rfl, rfl⟩
  | some lu =>
    dsimp only
    by_cases h1 : lu < now
    · rw [if_pos h1]; exact ⟨rfl, rfl⟩
    · rw [if_neg h1]
      by_cases hc : v.loginAttempts + 1 ≥ 5 ∧ isLocked v now = false
      · rw [if_pos hc]; exact ⟨rfl, rfl⟩
      · rw [if_neg hc]; exact ⟨rfl, rfl⟩

/-- `incLoginAttempts` on an unlocked credential: plain increment below the
threshold, increment plus a 2-hour lock at the fifth failure. -/
theorem incLoginAttempts_unlocked (u : User) (now : Nat) (h : u.lockUntil = none) :
    incLoginAttempts u now =
      (if u.loginAttempts + 1 ≥ 5 then
        { u with loginAttempts := u.loginAttempts + 1, lockUntil := some (now + 7200000) }
      else { u with loginAttempts := u.loginAttempts + 1 }) := by
  unfold incLoginAttempts incStep
  rw [h]
  have hl : isLocked u now = false := by simp [isLocked, h]
  by_cases hc : u.loginAttempts + 1 ≥ 5
  · rw [if_pos ⟨hc, hl⟩, if_pos hc]
  · rw [if_neg (fun hand => hc hand.1), if_neg hc]

/-- One wrong-password login on an unlocked, unblocked credential: the
`InvalidCredentials` error, with the failure counter bumped in the store. -/
theorem login_wrong_step (st : St) (u : User) (e wp : String) (meta : Metadata) (now : Nat)
    (hfind : findByEmail st.users e = some u)
    (hlock : isLocked u now = false)
    (hblk : u.isBlocked = false)
    (hpw : comparePassword wp u.password = false) :
    login st e wp meta now =
      (.error ⟨"Invalid Password or Email", 401⟩,
       { st with users := updById st.users u.id (fun x => incLoginAttempts x now) }) ∧
    findByEmail
        ({ st with users := updById st.users u.id (fun x => incLoginAttempts x now) }).users e
      = some (incLoginAttempts u now) := by
  constructor
  · simp only [login, hfind]
    rw [if_neg (by simp [hlock]), if_neg (by simp [hblk]), if_pos hpw]
  · exact findByEmail_updById st.users e u _ hfind
      (fun v => (incLoginAttempts_fields v now).1)

/-- One correct-password login on an unlocked, unblocked credential: success,
with the lockout state reset in the store. -/
theorem login_correct_step (st : St) (u : User) (e pw : String) (meta : Metadata) (now : Nat)
    (hfind : findByEmail st.users e = some u)
    (hlock : isLocked u now = false)
    (hblk : u.isBlocked = false)
    (hpw : comparePassword pw u.password = true)
    (hip : meta.ipAddress ≠ "")
    (hfresh : ∀ s ∈ st.sessions, s.token.jti ≠ st.rand) :
    ∃ pair stOut, login st e pw meta now = (.ok pair, stOut) ∧
      findByEmail stOut.users e = some (resetLoginAttempts u now) := by
  simp only [login, hfind]
  rw [if_neg (by simp [hlock]), if_neg (by simp [hblk]), if_neg (by simp [hpw])]
  simp only [createToken, createRefreshToken]
  have hany : (st.sessions.any (fun s =>
      s.token == (⟨u.id, "access", u.tokenVersion, st.rand, now / 1000,
        now / 1000 + accessTtlSec, meta.ipAddress, meta.userAgent⟩ : Token))) = false := by
    rw [List.any_eq_false]
    intro s hs
    simp only [beq_iff_eq]
    intro hEq
    exact hfresh s hs (by rw [hEq])
  unfold sessionCreate
  rw [if_neg hip, if_neg (by simp [hany])]
  refine ⟨_, _, rfl, ?_⟩
  exact findByEmail_updById st.users e u _ hfind (fun v => rfl)

/-- A login attempt against a currently locked credential fails
`AccountLocked` with the remaining minutes, before the password is ever
compared, and changes nothing. -/
theorem login_locked_step (st : St) (u : User) (e pw : String) (meta : Metadata) (now : Nat)
    (hfind : findByEmail st.users e = some u)
    (hlock : isLocked u now = true) :
    login st e pw meta now =
      (.error
        ⟨"Account temporarily locked due to multiple failed login attempts. Try again in "
          ++ toString (lockMinutesLeft (u.lockUntil.getD 0) now) ++ " minutes", 403⟩,
       st) := by
  simp only [login, hfind]
  rw [if_pos hlock]

/-- C4: the full lockout cycle.  From an unlocked, unblocked credential with
zero failed attempts: five consecutive wrong-password logins each fail with
the anti-enumeration `InvalidCredentials` error, and the fifth sets
`lockUntil = t5 + 2h` with the counter at 5; a sixth attempt inside the lock
window fails `AccountLocked` (with the remaining minutes) even with the
correct password, changing nothing; once the lock has expired, a login with
the correct password succeeds and resets the counter to zero and clears the
lock. -/
theorem claim4_lockout_cycle (st : St) (u : User) (e pw wp : String) (meta : Metadata)
    (t1 t2 t3 t4 t5 t6 t7 : Nat)
    (hfind : findByEmail st.users e = some u)
    (hl0 : u.lockUntil = none)
    (ha0 : u.loginAttempts = 0)
    (hblk : u.isBlocked = false)
    (hpw : u.password = bcryptHash pw)
    (hwp : comparePassword wp u.password = false)
    (hip : meta.ipAddress ≠ "")
    (hfresh : ∀ s ∈ st.sessions, s.token.jti ≠ st.rand)
    (h6 : t6 < t5 + 7200000)
    (h7 : t5 + 7200000 ≤ t7) :
    let st1 := (login st e wp meta t1).2
    let st2 := (login st1 e wp meta t2).2
    let st3 := (login st2 e wp meta t3).2
    let st4 := (login st3 e wp meta t4).2
    let st5 := (login st4 e wp meta t5).2
    ((login st e wp meta t1).1 = .error ⟨"Invalid Password or Email", 401⟩) ∧
    ((login st1 e wp meta t2).1 = .error ⟨"Invalid Password or Email", 401⟩) ∧
    ((login st2 e wp meta t3).1 = .error ⟨"Invalid Password or Email", 401⟩) ∧
    ((login st3 e wp meta t4).1 = .error ⟨"Invalid Password or Email", 401⟩) ∧
    ((login st4 e wp meta t5).1 = .error ⟨"Invalid Password or Email", 401⟩) ∧
    (findByEmail st5.users e =
      some { u with loginAttempts := 5, lockUntil := some (t5 + 7200000) }) ∧
    ((login st5 e pw meta t6).1 = .error
      ⟨"Account temporarily locked due to multiple failed login attempts. Try again in "
        ++ toString (lockMinutesLeft (t5 + 7200000) t6) ++ " minutes", 403⟩) ∧
    ((login st5 e pw meta t6).2 = st5) ∧
    (∃ pair st7, login st5 e pw meta t7 = (.ok pair, st7) ∧
      findByEmail st7.users e =
        some { u with loginAttempts := 0, lastLogin := some t7, lockUntil := none }) := by
  -- step 1
  have e1 := login_wrong_step st u e wp meta t1 hfind (by simp [isLocked, hl0]) hblk hwp
  have hu1 : incLoginAttempts u t1 = { u with loginAttempts := 1 } := by
    rw [incLoginAttempts_unlocked u t1 hl0, if_neg (by omega), ha0]
  rw [hu1] at e1
  -- step 2
  have e2 := login_wrong_step _ { u with loginAttempts := 1 } e wp meta t2 e1.2
    (by simp [isLocked, hl0]) hblk hwp
  have hu2 : incLoginAttempts { u with loginAttempts := 1 } t2 =
      { u with loginAttempts := 2 } := by
    rw [incLoginAttempts_unlocked _ t2 (by exact hl0), if_neg (by show ¬(1 + 1 ≥ 5); decide)]
  rw [hu2] at e2
  -- step 3
  have e3 := login_wrong_step _ { u with loginAttempts := 2 } e wp meta t3 e2.2
    (by simp [isLocked, hl0]) hblk hwp
  have hu3 : incLoginAttempts { u with loginAttempts := 2 } t3 =
      { u with loginAttempts := 3 } := by
    rw [incLoginAttempts_unlocked _ t3 (by exact hl0), if_neg (by show ¬(2 + 1 ≥ 5); decide)]
  rw [hu3] at e3
  -- step 4
  have e4 := login_wrong_step _ { u with loginAttempts := 3 } e wp meta t4 e3.2
    (by simp [isLocked, hl0]) hblk hwp
  have hu4 : incLoginAttempts { u with loginAttempts := 3 } t4 =
      { u with loginAttempts := 4 } := by
    rw [incLoginAttempts_unlocked _ t4 (by exact hl0), if_neg (by show ¬(3 + 1 ≥ 5); decide)]
  rw [hu4] at e4
  -- step 5: the lock engages
  have e5 := login_wrong_step _ { u with loginAttempts := 4 } e wp meta t5 e4.2
    (by simp [isLocked, hl0]) hblk hwp
  have hu5 : incLoginAttempts { u with loginAttempts := 4 } t5 =
      { u with loginAttempts := 5, lockUntil := some (t5 + 7200000) } := by
    rw [incLoginAttempts_unlocked _ t5 (by exact hl0), if_pos (by show 4 + 1 ≥ 5; decide)]
  rw [hu5] at e5
  -- step 6: locked out even with the correct password
  have hlock6 : isLocked { u with
      loginAttempts := 5, lockUntil := some (t5 + 7200000) } t6 = true := by
    simp [isLocked, h6]
  have r6 := login_locked_step _ { u with
      loginAttempts := 5, lockUntil := some (t5 + 7200000) } e pw meta t6 e5.2 hlock6
  -- step 7: lock expired, correct password succeeds and resets
  have hlock7 : isLocked { u with
      loginAttempts := 5, lockUntil := some (t5 + 7200000) } t7 = false := by
    simp only [isLocked, decide_eq_false_iff_not]
    omega
  have e7 := login_correct_step _ { u with
      loginAttempts := 5, lockUntil := some (t5 + 7200000) } e pw meta t7 e5.2 hlock7 hblk
    (by simp [comparePassword, hpw]) hip hfresh
  -- per-step projections
  have r1 : (login st e wp meta t1).1 = .error ⟨"Invalid Password or Email", 401⟩ := by
    rw [e1.1]
  have s1 : (login st e wp meta t1).2 =
      { st with users := updById st.users u.id (fun x => incLoginAttempts x t1) } := by
    rw [e1.1]
  dsimp only
  rw [s1]
  have s2 := congrArg Prod.snd e2.1
  dsimp only at s2
  rw [s2]
  have s3 := congrArg Prod.snd e3.1
  dsimp only at s3
  rw [s3]
  have s4 := congrArg Prod.snd e4.1
  dsimp only at s4
  rw [s4]
  have s5 := congrArg Prod.snd e5.1
  dsimp only at s5
  rw [s5]
  exact ⟨r1, congrArg Prod.fst e2.1, congrArg Prod.fst e3.1, congrArg Prod.fst e4.1,
    congrArg Prod.fst e5.1, e5.2, congrArg Prod.fst r6, congrArg Prod.snd r6, e7⟩

/-- The credential and store of the C4 witness scenario. -/
def c4User : User :=
  ⟨1, "Al", "Jo", "a@b.c", none, bcryptHash "Xk9!mqPz2w",
   none, none, 0, 0, none, none, false, "user", "Bronze"⟩

def c4St : St := ⟨[c4User], [], [], [], 0⟩

/-- Witness for C4 at concrete times: failures at t=10..50, a locked attempt
at t=60, and a successful reset at t=7200051 (one ms after the lock ends). -/
theorem claim4_witness :
    (findByEmail c4St.users "a@b.c" = some c4User ∧
     c4User.lockUntil = none ∧
     c4User.loginAttempts = 0 ∧
     c4User.isBlocked = false ∧
     c4User.password = bcryptHash "Xk9!mqPz2w" ∧
     comparePassword "nope" c4User.password = false ∧
     cMeta.ipAddress ≠ "" ∧
     (∀ s ∈ c4St.sessions, s.token.jti ≠ c4St.rand) ∧
     60 < 50 + 7200000 ∧
     50 + 7200000 ≤ 7200051) ∧
    (let st1 := (login c4St "a@b.c" "nope" cMeta 10).2
     let st2 := (login st1 "a@b.c" "nope" cMeta 20).2
     let st3 := (login st2 "a@b.c" "nope" cMeta 30).2
     let st4 := (login st3 "a@b.c" "nope" cMeta 40).2
     let st5 := (login st4 "a@b.c" "nope" cMeta 50).2
     ((login c4St "a@b.c" "nope" cMeta 10).1 = .error ⟨"Invalid Password or Email", 401⟩) ∧
     ((login st1 "a@b.c" "nope" cMeta 20).1 = .error ⟨"Invalid Password or Email", 401⟩) ∧
     ((login st2 "a@b.c" "nope" cMeta 30).1 = .error ⟨"Invalid Password or Email", 401⟩) ∧
     ((login st3 "a@b.c" "nope" cMeta 40).1 = .error ⟨"Invalid Password or Email", 401⟩) ∧
     ((login st4 "a@b.c" "nope" cMeta 50).1 = .error ⟨"Invalid Password or Email", 401⟩) ∧
     (findByEmail st5.users "a@b.c" =
       some { c4User with loginAttempts := 5, lockUntil := some (50 + 7200000) }) ∧
     ((login st5 "a@b.c" "Xk9!mqPz2w" cMeta 60).1 = .error
       ⟨"Account temporarily locked due to multiple failed login attempts. Try again in "
         ++ toString (lockMinutesLeft (50 + 7200000) 60) ++ " minutes", 403⟩) ∧
     ((login st5 "a@b.c" "Xk9!mqPz2w" cMeta 60).2 = st5) ∧
     (∃ pair st7, login st5 "a@b.c" "Xk9!mqPz2w" cMeta 7200051 = (.ok pair, st7) ∧
       findByEmail st7.users "a@b.c" =
         some { c4User with
           loginAttempts := 0, lastLogin := some 7200051, lockUntil := none })) := by
  refine ⟨⟨by decide, by decide, by decide, by decide, by decide, by decide, by decide,
    by decide, by decide, by decide⟩, ?_⟩
  exact claim4_lockout_cycle c4St c4User "a@b.c" "Xk9!mqPz2w" "nope" cMeta
    10 20 30 40 50 60 7200051 (by decide) (by decide) (by decide) (by decide) (by decide)
    (by decide) (by decide) (by decide) (by decide) (by decide)

end SharingAuth
